import Mathlib

/-!
Verification of the Onedb seeding scripts (src/models.py and src/Dbcarga.py).

The repository declares six SQLAlchemy entities (Cliente, Produto, Caixa,
FormaPagamento, StatusEntrega, Venda) and populates them with random data.
We shallow-embed the data model and the generator functions.  Randomness is
made explicit: every call to a random primitive (random.choice,
random.choices, random.randint, random.uniform, faker's date_between and
string providers) is represented by one field of a "draws" structure, and
the primitives' contracts (an int in [a,b], a float in [a,b], a date in the
requested window, an element of the sequence) become hypotheses of the
theorems.  Python floats are modelled as rationals (ℚ); dates as integer
day offsets relative to "today" (today = 0, one year ago = -365, thirty
days ago = -30), matching faker's date_between bounds.  Integer ids that
SQLAlchemy assigns on insert are modelled as `Option Int`, `none` on a
freshly generated instance, exactly as the unflushed ORM object carries
`None`.
-/

/-- Entity `Cliente` (models.py, class Cliente): customers table. -/
structure Cliente where
  id_cliente : Option Int
  nome : String
  cpf_cnpj : String
  endereco : String
  telefone : String
  email : String
  segmento : String
  canal_compra : String
deriving DecidableEq

/-- Entity `Produto` (models.py, class Produto): products table.
`preco_unitario` and `peso_sazonal` are Python floats, modelled as ℚ. -/
structure Produto where
  id_produto : Option Int
  descricao : String
  categoria : String
  preco_unitario : ℚ
  peso_sazonal : ℚ
  unidade_medida : String
deriving DecidableEq

/-- Entity `Caixa` (models.py, class Caixa): cashiers table.
`data_admissao` is a date, modelled as a day offset relative to today. -/
structure Caixa where
  id_caixa : Option Int
  nome : String
  funcao : String
  data_admissao : Int
deriving DecidableEq

/-- Entity `FormaPagamento` (models.py, class FormaPagamento):
payment methods table. -/
structure FormaPagamento where
  id_forma_pagamento : Option Int
  descricao : String
  prazo_pagamento : Int
  desconto : ℚ
deriving DecidableEq

/-- Entity `StatusEntrega` (models.py, class StatusEntrega):
delivery status table. -/
structure StatusEntrega where
  id_status_entrega : Option Int
  descricao : String
deriving DecidableEq

/-- Entity `Venda` (models.py, class Venda): the sales fact table.
`data_entrega` is nullable (`None` when not delivered), hence `Option`. -/
structure Venda where
  id_venda : Option Int
  id_cliente : Option Int
  id_produto : Option Int
  data_venda : Int
  valor_venda : ℚ
  quantidade : Int
  id_forma_pagamento : Option Int
  id_status_entrega : Option Int
  data_entrega : Option Int
  id_caixa : Option Int
deriving DecidableEq

/-- The persisted store visible to `session.query(...).all()`: one list of
rows per reference table.  `gerar_venda` performs five separate full-table
reads, one per field below. -/
structure DB where
  clientes : List Cliente
  produtos : List Produto
  formas_pagamento : List FormaPagamento
  status_entrega : List StatusEntrega
  caixas : List Caixa
deriving DecidableEq

/-- Python's `random.choice(seq)`: raises IndexError on an empty sequence,
otherwise returns the element at a uniformly drawn index.  The drawn index
is the explicit argument `i`; reduction modulo the length keeps the
function total, and theorems that speak about the chosen row quantify over
`i < seq.length` (every index is drawn with equal probability). -/
def randomChoice {α : Type} (l : List α) (i : Nat) : Except String α :=
  if h : l.length = 0 then
    Except.error "IndexError: Cannot choose from an empty sequence"
  else
    Except.ok (l.get ⟨i % l.length, Nat.mod_lt _ (Nat.pos_of_ne_zero h)⟩)

/-- `random.choice` on a list the caller knows to be a fixed non-empty
literal (segment, channel, unit of measure, role lists in the source):
same index model, with a default that is never reached for those lists. -/
def choiceList (l : List String) (i : Nat) : String :=
  l.getD (i % l.length) ""

/-- `random.choices(list(d.keys()), weights=d.values())[0]` on the fixed
weighted tables of the source: returns one key of the table.  The drawn
index is explicit; every key with nonzero weight is reachable. -/
def weightedChoice (l : List (String × ℚ)) (i : Nat) : String :=
  (l.map Prod.fst).getD (i % l.length) ""

/-- `categorias_produtos` (models.py lines 151-160): weighted product
categories. -/
def categorias_produtos : List (String × ℚ) :=
  [("Cimento e Argamassa", 0.2), ("Tijolos e Blocos", 0.15),
   ("Telhas e Coberturas", 0.1), ("Madeiras", 0.1), ("Hidráulica", 0.15),
   ("Elétrica", 0.1), ("Ferramentas", 0.1), ("Tintas", 0.1)]

/-- `formas_pagamento` weighted table (models.py lines 163-168). -/
def formas_pagamento : List (String × ℚ) :=
  [("Dinheiro", 0.1), ("Cartão de Crédito", 0.6),
   ("Cartão de Débito", 0.2), ("Boleto", 0.1)]

/-- `status_entrega` list (models.py line 171). -/
def status_entrega : List String :=
  ["Em processamento", "Enviado", "Entregue"]

/-- The random values consumed by one call of `gerar_cliente`:
faker strings and two `random.choice` indices. -/
structure ClienteDraws where
  nome : String
  cpf_cnpj : String
  endereco : String
  telefone : String
  email : String
  iSegmento : Nat
  iCanal : Nat
deriving DecidableEq

/-- `gerar_cliente` (models.py lines 175-191). -/
def gerar_cliente (d : ClienteDraws) : Cliente :=
  { id_cliente := none
    nome := d.nome
    cpf_cnpj := d.cpf_cnpj
    endereco := d.endereco
    telefone := d.telefone
    email := d.email
    segmento := choiceList ["Residencial", "Comercial", "Industrial"] d.iSegmento
    canal_compra := choiceList ["Loja Física", "Online"] d.iCanal }

/-- Python's `round(x, 2)` rounds half to even (banker's rounding);
`roundHalfEven` is that rule on a rational scaled to integer position. -/
def roundHalfEven (x : ℚ) : ℤ :=
  if x - Int.floor x < 1/2 then Int.floor x
  else if 1/2 < x - Int.floor x then Int.floor x + 1
  else if Int.floor x % 2 = 0 then Int.floor x else Int.floor x + 1

/-- `round(x, 2)`: round to two decimal places, half to even. -/
def round2 (x : ℚ) : ℚ :=
  (roundHalfEven (x * 100) : ℚ) / 100

/-- The random values consumed by one call of `gerar_produto`:
one weighted-choice index, a faker sentence, `uniform(10, 500)`,
`uniform(0.8, 1.2)`, and one `random.choice` index. -/
structure ProdutoDraws where
  iCategoria : Nat
  descricao : String
  precoRaw : ℚ
  pesoSazonal : ℚ
  iUnidade : Nat
deriving DecidableEq

/-- `gerar_produto` (models.py lines 193-208; identical in
Dbcarga.py lines 65-80). -/
def gerar_produto (d : ProdutoDraws) : Produto :=
  { id_produto := none
    descricao := d.descricao
    categoria := weightedChoice categorias_produtos d.iCategoria
    preco_unitario := round2 d.precoRaw
    peso_sazonal := d.pesoSazonal
    unidade_medida := choiceList ["UN", "KG", "M", "M2", "M3"] d.iUnidade }

/-- The random values consumed by one call of `gerar_caixa`. -/
structure CaixaDraws where
  nome : String
  iFuncao : Nat
  dataAdmissao : Int
deriving DecidableEq

/-- `gerar_caixa` (models.py lines 210-222). -/
def gerar_caixa (d : CaixaDraws) : Caixa :=
  { id_caixa := none
    nome := d.nome
    funcao := choiceList ["Caixa", "Gerente"] d.iFuncao
    data_admissao := d.dataAdmissao }

/-- The random values consumed by one call of `gerar_forma_pagamento`:
one weighted-choice index, the `randint(0, 30)` draw and the
`uniform(0, 0.1)` draw (each consumed only in its branch). -/
structure FormaPagamentoDraws where
  iDescricao : Nat
  prazo : Int
  descontoVal : ℚ
deriving DecidableEq

/-- `gerar_forma_pagamento` (models.py lines 224-237). -/
def gerar_forma_pagamento (d : FormaPagamentoDraws) : FormaPagamento :=
  let descricao := weightedChoice formas_pagamento d.iDescricao
  { id_forma_pagamento := none
    descricao := descricao
    prazo_pagamento := if descricao = "Boleto" then d.prazo else 0
    desconto := if descricao = "Dinheiro" then d.descontoVal else 0 }

/-- `gerar_status_entrega` (models.py lines 239-250): `random.choice` over
the caller-supplied list, so it can fail on an empty list. -/
def gerar_status_entrega (lista_status : List String) (i : Nat) :
    Except String StatusEntrega :=
  (randomChoice lista_status i).map
    (fun s => { id_status_entrega := none, descricao := s })

/-- The random values consumed by one call of `gerar_venda`: five
`random.choice` indices (one per reference table, in source order), the
`date_between("-1y", "today")` draw, the `randint(1, 10)` draw used for
`valor_venda`, the separate `randint(1, 10)` draw used for `quantidade`,
and the `date_between("-30d", "today")` draw. -/
structure VendaDraws where
  iCliente : Nat
  iProduto : Nat
  iForma : Nat
  iStatus : Nat
  iCaixa : Nat
  dataVenda : Int
  valorMult : Int
  quantidade : Int
  dataEntrega : Int
deriving DecidableEq

/-- `gerar_venda` (models.py lines 252-276; identical in Dbcarga.py lines
83-107): five separate full-table reads, one uniform choice from each, then
the Venda instance.  Note the source multiplies `preco_unitario` by a
`randint(1, 10)` draw distinct from the `randint(1, 10)` that sets
`quantidade`. -/
def gerar_venda (db : DB) (d : VendaDraws) : Except String Venda :=
  match randomChoice db.clientes d.iCliente with
  | Except.error e => Except.error e
  | Except.ok cliente =>
  match randomChoice db.produtos d.iProduto with
  | Except.error e => Except.error e
  | Except.ok produto =>
  match randomChoice db.formas_pagamento d.iForma with
  | Except.error e => Except.error e
  | Except.ok forma_pagamento =>
  match randomChoice db.status_entrega d.iStatus with
  | Except.error e => Except.error e
  | Except.ok status =>
  match randomChoice db.caixas d.iCaixa with
  | Except.error e => Except.error e
  | Except.ok caixa =>
  Except.ok {
    id_venda := none
    id_cliente := cliente.id_cliente
    id_produto := produto.id_produto
    data_venda := d.dataVenda
    valor_venda := produto.preco_unitario * (d.valorMult : ℚ)
    quantidade := d.quantidade
    id_forma_pagamento := forma_pagamento.id_forma_pagamento
    id_status_entrega := status.id_status_entrega
    data_entrega := if status.descricao = "Entregue"
                    then some d.dataEntrega else none
    id_caixa := caixa.id_caixa }

/-- The six tables declared on `Base` (models.py `__tablename__`s). -/
def tabelas : List String :=
  ["clientes", "produtos", "caixas", "formas_pagamento", "status_entrega",
   "vendas"]

/-- Modelled from the spec: `Base.metadata.create_all(engine)`
(models.py line 141) is SQLAlchemy library code, not present under src/.
Per spec §4.1 it ensures the backing storage contains a table for each
declared entity, creating the missing ones and leaving existing ones
untouched (creating tables that already exist is a no-op, and no error is
raised).  The store is the list of table names it holds. -/
def create_all (declared : List String) (store : List String) :
    List String :=
  declared.foldl (fun s t => if t ∈ s then s else s ++ [t]) store

/-- One storage-session instruction issued by a seeding driver: schema
creation, `session.add` of one generated entity, `session.commit`, or
`session.close`. -/
inductive Ev where
  | createSchema
  | addCliente
  | addProduto
  | addCaixa
  | addFormaPagamento
  | addStatusEntrega
  | addVenda
  | commit
  | close
deriving DecidableEq

/-- The module-level driver of Dbcarga.py (lines 110-126): 400
`session.add(gerar_produto())`, then 80 `session.add(gerar_cliente())`,
then 200 `session.add(gerar_venda())` against the pre-existing store, then
one `session.commit()` and `session.close()`. -/
def dbcarga_trace : List Ev :=
  List.replicate 400 Ev.addProduto ++ List.replicate 80 Ev.addCliente ++
    List.replicate 200 Ev.addVenda ++ [Ev.commit, Ev.close]

/-- The module-level driver of models.py (lines 141, 278-293):
`Base.metadata.create_all`, then 100 iterations each adding one cliente,
produto, caixa, forma de pagamento and status de entrega, then 500
`session.add(gerar_venda())`, then one `session.commit()` and
`session.close()`. -/
def models_trace : List Ev :=
  [Ev.createSchema] ++
    (List.replicate 100
      [Ev.addCliente, Ev.addProduto, Ev.addCaixa, Ev.addFormaPagamento,
       Ev.addStatusEntrega]).flatten ++
    List.replicate 500 Ev.addVenda ++ [Ev.commit, Ev.close]

/-- `random.choice` with an in-range index returns the element at that
index. -/
theorem randomChoice_ok_of_lt {α : Type} (l : List α) (i : Nat)
    (h : i < l.length) : randomChoice l i = Except.ok (l.get ⟨i, h⟩) := by
  have hne : l.length ≠ 0 := by omega
  have hm : i % l.length = i := Nat.mod_eq_of_lt h
  simp [randomChoice, hne, hm]

/-- Anything `random.choice` returns is an element of the sequence. -/
theorem randomChoice_mem {α : Type} {l : List α} {i : Nat} {a : α}
    (h : randomChoice l i = Except.ok a) : a ∈ l := by
  by_cases hl : l.length = 0
  · simp [randomChoice, hl] at h
  · simp [randomChoice, hl] at h
    exact h ▸ l.get_mem _ _

/-- A successful `random.choice` means the sequence was non-empty. -/
theorem randomChoice_ne_nil {α : Type} {l : List α} {i : Nat} {a : α}
    (h : randomChoice l i = Except.ok a) : l ≠ [] := by
  intro hl
  subst hl
  simp [randomChoice] at h

/-- Banker's rounding lands on the floor or the ceiling of its argument. -/
theorem roundHalfEven_cases (x : ℚ) :
    roundHalfEven x = Int.floor x ∨ roundHalfEven x = Int.floor x + 1 := by
  unfold roundHalfEven
  split
  · exact Or.inl rfl
  split
  · exact Or.inr rfl
  split
  · exact Or.inl rfl
  · exact Or.inr rfl

/-- Banker's rounding fixes integers. -/
theorem roundHalfEven_intCast (m : ℤ) : roundHalfEven (m : ℚ) = m := by
  unfold roundHalfEven
  rw [Int.floor_intCast]
  rw [if_pos (by norm_num)]

/-- Banker's rounding never drops below an integer lower bound. -/
theorem roundHalfEven_ge_int {y : ℚ} {m : ℤ} (h : (m : ℚ) ≤ y) :
    m ≤ roundHalfEven y := by
  have hf : m ≤ Int.floor y := Int.le_floor.mpr h
  rcases roundHalfEven_cases y with hr | hr <;> omega

/-- Banker's rounding never exceeds an integer upper bound. -/
theorem roundHalfEven_le_int {y : ℚ} {m : ℤ} (h : y ≤ (m : ℚ)) :
    roundHalfEven y ≤ m := by
  have hf : Int.floor y ≤ m := by
    have h2 := Int.floor_le_floor h
    simpa using h2
  by_cases he : Int.floor y = m
  · have hy : y = (m : ℚ) := by
      refine le_antisymm h ?_
      rw [← he]
      exact Int.floor_le y
    rw [hy, roundHalfEven_intCast]
  · have h3 : Int.floor y + 1 ≤ m := by omega
    rcases roundHalfEven_cases y with hr | hr <;> omega

/-- `round(x, 2)` keeps a value of [10, 500] inside [10, 500]. -/
theorem round2_mem_Icc {x : ℚ} (h1 : 10 ≤ x) (h2 : x ≤ 500) :
    10 ≤ round2 x ∧ round2 x ≤ 500 := by
  have hl : (1000 : ℤ) ≤ roundHalfEven (x * 100) := by
    apply roundHalfEven_ge_int
    push_cast
    linarith
  have hu : roundHalfEven (x * 100) ≤ (50000 : ℤ) := by
    apply roundHalfEven_le_int
    push_cast
    linarith
  unfold round2
  constructor
  · rw [le_div_iff (by norm_num : (0 : ℚ) < 100)]
    have hc : (1000 : ℚ) ≤ (roundHalfEven (x * 100) : ℚ) := by
      exact_mod_cast hl
    linarith
  · rw [div_le_iff (by norm_num : (0 : ℚ) < 100)]
    have hc : ((roundHalfEven (x * 100) : ℚ)) ≤ 50000 := by
      exact_mod_cast hu
    linarith

/-- Unfolding step of `create_all`. -/
theorem create_all_cons (t : String) (ts : List String) (s : List String) :
    create_all (t :: ts) s = create_all ts (if t ∈ s then s else s ++ [t]) :=
  rfl

/-- One `create_all` step never removes a table from the store. -/
theorem create_all_step_mem {s : List String} {x t : String} (h : x ∈ s) :
    x ∈ (if t ∈ s then s else s ++ [t]) := by
  split
  · exact h
  · exact List.mem_append_left _ h

/-- `create_all` never removes a table from the store. -/
theorem mem_create_all_of_mem {x : String} :
    ∀ (declared s : List String), x ∈ s → x ∈ create_all declared s
  | [], _, h => h
  | _ :: ts, _, h => mem_create_all_of_mem ts _ (create_all_step_mem h)

/-- After `create_all`, every declared table is present in the store. -/
theorem mem_create_all_self :
    ∀ (declared s : List String), ∀ t ∈ declared, t ∈ create_all declared s
  | [], _, t, ht => absurd ht (List.not_mem_nil t)
  | t' :: ts, s, t, ht => by
    rw [create_all_cons]
    rcases List.mem_cons.mp ht with h | h
    · subst h
      apply mem_create_all_of_mem
      split
      · assumption
      · exact List.mem_append_right _ (List.mem_singleton.mpr rfl)
    · exact mem_create_all_self ts _ t h

/-- `create_all` on a store already holding every declared table is the
identity. -/
theorem create_all_eq_of_all_mem :
    ∀ (declared s : List String), (∀ t ∈ declared, t ∈ s) →
      create_all declared s = s
  | [], _, _ => rfl
  | t :: ts, s, h => by
    rw [create_all_cons, if_pos (h t (List.mem_cons_self t ts))]
    exact create_all_eq_of_all_mem ts s fun u hu => h u (List.mem_cons_of_mem _ hu)

/-- A successful `gerar_venda` run means all five reference tables were
non-empty (each `random.choice` returned a row). -/
theorem gerar_venda_ok_nonempty {db : DB} {d : VendaDraws} {v : Venda}
    (h : gerar_venda db d = Except.ok v) :
    db.clientes ≠ [] ∧ db.produtos ≠ [] ∧ db.formas_pagamento ≠ [] ∧
      db.status_entrega ≠ [] ∧ db.caixas ≠ [] := by
  unfold gerar_venda at h
  split at h
  · exact Except.noConfusion h
  split at h
  · exact Except.noConfusion h
  split at h
  · exact Except.noConfusion h
  split at h
  · exact Except.noConfusion h
  split at h
  · exact Except.noConfusion h
  rename_i a1 cliente hc a2 produto hp a3 forma hf a4 st hs a5 caixa hcx
  exact ⟨randomChoice_ne_nil hc, randomChoice_ne_nil hp,
    randomChoice_ne_nil hf, randomChoice_ne_nil hs, randomChoice_ne_nil hcx⟩

/-- Running `gerar_venda` with all five choice indices in range: it
succeeds, and the returned Venda is built from exactly the five selected
rows. -/
theorem gerar_venda_run (db : DB) (d : VendaDraws)
    (hc : d.iCliente < db.clientes.length)
    (hp : d.iProduto < db.produtos.length)
    (hf : d.iForma < db.formas_pagamento.length)
    (hs : d.iStatus < db.status_entrega.length)
    (hx : d.iCaixa < db.caixas.length) :
    gerar_venda db d = Except.ok {
      id_venda := none
      id_cliente := (db.clientes.get ⟨d.iCliente, hc⟩).id_cliente
      id_produto := (db.produtos.get ⟨d.iProduto, hp⟩).id_produto
      data_venda := d.dataVenda
      valor_venda :=
        (db.produtos.get ⟨d.iProduto, hp⟩).preco_unitario * (d.valorMult : ℚ)
      quantidade := d.quantidade
      id_forma_pagamento :=
        (db.formas_pagamento.get ⟨d.iForma, hf⟩).id_forma_pagamento
      id_status_entrega :=
        (db.status_entrega.get ⟨d.iStatus, hs⟩).id_status_entrega
      data_entrega :=
        if (db.status_entrega.get ⟨d.iStatus, hs⟩).descricao = "Entregue"
        then some d.dataEntrega else none
      id_caixa := (db.caixas.get ⟨d.iCaixa, hx⟩).id_caixa } := by
  simp only [gerar_venda, randomChoice_ok_of_lt _ _ hc,
    randomChoice_ok_of_lt _ _ hp, randomChoice_ok_of_lt _ _ hf,
    randomChoice_ok_of_lt _ _ hs, randomChoice_ok_of_lt _ _ hx]

/-- The weighted choice over a non-empty table returns one of its keys. -/
theorem weightedChoice_mem (l : List (String × ℚ)) (i : Nat) (h : l ≠ []) :
    weightedChoice l i ∈ l.map Prod.fst := by
  unfold weightedChoice
  have hlen : i % l.length < (l.map Prod.fst).length := by
    rw [List.length_map]
    exact Nat.mod_lt _ (List.length_pos.mpr h)
  rw [List.getD_eq_getElem _ _ hlen]
  exact List.getElem_mem hlen

/-- A concrete customer row, as persisted (id assigned). -/
def cliente_exemplo : Cliente :=
  { id_cliente := some 1, nome := "Ana Souza", cpf_cnpj := "123.456.789-00"
    endereco := "Rua A, 10", telefone := "11 99999-0000"
    email := "ana@example.com", segmento := "Residencial"
    canal_compra := "Online" }

/-- A concrete product row with unit price 100. -/
def produto_exemplo : Produto :=
  { id_produto := some 2, descricao := "Saco de cimento 50kg"
    categoria := "Cimento e Argamassa", preco_unitario := 100
    peso_sazonal := 1, unidade_medida := "UN" }

/-- A concrete payment method row. -/
def forma_exemplo : FormaPagamento :=
  { id_forma_pagamento := some 3, descricao := "Dinheiro"
    prazo_pagamento := 0, desconto := 0 }

/-- A concrete delivery status row with description "Entregue". -/
def status_exemplo : StatusEntrega :=
  { id_status_entrega := some 4, descricao := "Entregue" }

/-- A concrete cashier row. -/
def caixa_exemplo : Caixa :=
  { id_caixa := some 5, nome := "Bia Lima", funcao := "Caixa"
    data_admissao := -100 }

/-- A store holding exactly one row of each reference entity. -/
def db_exemplo : DB :=
  { clientes := [cliente_exemplo], produtos := [produto_exemplo]
    formas_pagamento := [forma_exemplo], status_entrega := [status_exemplo]
    caixas := [caixa_exemplo] }

/-- An entirely empty store. -/
def db_vazio : DB :=
  { clientes := [], produtos := [], formas_pagamento := []
    status_entrega := [], caixas := [] }

/-- Draws for one `gerar_venda` call in which the `randint(1, 10)` used in
`valor_venda` returns 2 while the `randint(1, 10)` used for `quantidade`
returns 3 — both legal outcomes of the two independent calls. -/
def draws_exemplo : VendaDraws :=
  { iCliente := 0, iProduto := 0, iForma := 0, iStatus := 0, iCaixa := 0
    dataVenda := -10, valorMult := 2, quantidade := 3, dataEntrega := -5 }

/-- The Venda that `gerar_venda db_exemplo draws_exemplo` produces. -/
def venda_exemplo : Venda :=
  { id_venda := none, id_cliente := some 1, id_produto := some 2
    data_venda := -10, valor_venda := 200, quantidade := 3
    id_forma_pagamento := some 3, id_status_entrega := some 4
    data_entrega := some (-5), id_caixa := some 5 }

/-- Evaluating `gerar_venda` on the one-row store with the draw vector
`draws_exemplo` yields exactly `venda_exemplo`. -/
theorem gerar_venda_exemplo_eq :
    gerar_venda db_exemplo draws_exemplo = Except.ok venda_exemplo := by
  rw [gerar_venda_run db_exemplo draws_exemplo (by decide) (by decide)
    (by decide) (by decide) (by decide)]
  simp [db_exemplo, draws_exemplo, venda_exemplo, cliente_exemplo,
    produto_exemplo, forma_exemplo, status_exemplo, caixa_exemplo]
  norm_num

/-- C1: the claim states that every generated Sale satisfies
`valor_venda = preco_unitario * quantidade` with `quantidade ∈ [1, 10]`.
The code violates the equality: `valor_venda` multiplies the product price
by a `randint(1, 10)` draw distinct from the `randint(1, 10)` draw stored
in `quantidade` (models.py lines 269-270).  Concretely, on a store with a
single product of unit price 100, when the first draw returns 2 and the
second returns 3 — both in [1, 10] — the generated Venda has
`valor_venda = 200` while `preco_unitario * quantidade = 300`. -/
theorem C1_valor_venda_bug :
    gerar_venda db_exemplo draws_exemplo = Except.ok venda_exemplo ∧
    1 ≤ draws_exemplo.valorMult ∧ draws_exemplo.valorMult ≤ 10 ∧
    1 ≤ draws_exemplo.quantidade ∧ draws_exemplo.quantidade ≤ 10 ∧
    venda_exemplo.quantidade = 3 ∧
    venda_exemplo.valor_venda = 200 ∧
    produto_exemplo.preco_unitario * (venda_exemplo.quantidade : ℚ) = 300 ∧
    venda_exemplo.valor_venda ≠
      produto_exemplo.preco_unitario * (venda_exemplo.quantidade : ℚ) := by
  refine ⟨gerar_venda_exemplo_eq, ?_, ?_, ?_, ?_, rfl, rfl,
    by norm_num [produto_exemplo, venda_exemplo], ?_⟩
  · norm_num [draws_exemplo]
  · norm_num [draws_exemplo]
  · norm_num [draws_exemplo]
  · norm_num [draws_exemplo]
  · norm_num [produto_exemplo, venda_exemplo]

/-- Inversion of a successful `gerar_venda` run: it is built from the five
rows the five `random.choice` calls returned. -/
theorem gerar_venda_ok_elim {db : DB} {d : VendaDraws} {v : Venda}
    (h : gerar_venda db d = Except.ok v) :
    ∃ cliente produto forma st caixa,
      randomChoice db.clientes d.iCliente = Except.ok cliente ∧
      randomChoice db.produtos d.iProduto = Except.ok produto ∧
      randomChoice db.formas_pagamento d.iForma = Except.ok forma ∧
      randomChoice db.status_entrega d.iStatus = Except.ok st ∧
      randomChoice db.caixas d.iCaixa = Except.ok caixa ∧
      v = { id_venda := none
            id_cliente := cliente.id_cliente
            id_produto := produto.id_produto
            data_venda := d.dataVenda
            valor_venda := produto.preco_unitario * (d.valorMult : ℚ)
            quantidade := d.quantidade
            id_forma_pagamento := forma.id_forma_pagamento
            id_status_entrega := st.id_status_entrega
            data_entrega := if st.descricao = "Entregue"
                            then some d.dataEntrega else none
            id_caixa := caixa.id_caixa } := by
  unfold gerar_venda at h
  split at h
  · exact Except.noConfusion h
  split at h
  · exact Except.noConfusion h
  split at h
  · exact Except.noConfusion h
  split at h
  · exact Except.noConfusion h
  split at h
  · exact Except.noConfusion h
  rename_i a1 cliente hc a2 produto hp a3 forma hf a4 st hs a5 caixa hcx
  exact ⟨cliente, produto, forma, st, caixa, hc, hp, hf, hs, hcx,
    (Except.ok.inj h).symm⟩

/-- C2: for every Sale the generator produces, `data_entrega` is non-null
iff the sampled delivery status row's description is "Entregue"; a
non-null delivery date is the `date_between("-30d", "today")` draw, hence
lies in [today - 30, today]; and `data_venda` is the
`date_between("-1y", "today")` draw, hence lies in [today - 365, today]
(models.py lines 265-275). -/
theorem C2_data_entrega_sse_entregue (db : DB) (d : VendaDraws) (v : Venda)
    (st : StatusEntrega)
    (hst : randomChoice db.status_entrega d.iStatus = Except.ok st)
    (hv : gerar_venda db d = Except.ok v)
    (h1 : -365 ≤ d.dataVenda) (h2 : d.dataVenda ≤ 0)
    (h3 : -30 ≤ d.dataEntrega) (h4 : d.dataEntrega ≤ 0) :
    (v.data_entrega ≠ none ↔ st.descricao = "Entregue") ∧
    (∀ t : Int, v.data_entrega = some t → -30 ≤ t ∧ t ≤ 0) ∧
    -365 ≤ v.data_venda ∧ v.data_venda ≤ 0 := by
  obtain ⟨c, p, f, st2, cx, hc, hp, hf, hs2, hcx, hveq⟩ :=
    gerar_venda_ok_elim hv
  rw [hst] at hs2
  injection hs2 with hs2
  subst hs2
  subst hveq
  refine ⟨?_, ?_, h1, h2⟩
  · by_cases hE : st.descricao = "Entregue" <;> simp [hE]
  · intro t ht
    by_cases hE : st.descricao = "Entregue"
    · simp [hE] at ht
      omega
    · simp [hE] at ht

/-- Witness for C2 at the one-row store. -/
theorem C2_data_entrega_sse_entregue_witness :
    (venda_exemplo.data_entrega ≠ none ↔
      status_exemplo.descricao = "Entregue") ∧
    (∀ t : Int, venda_exemplo.data_entrega = some t → -30 ≤ t ∧ t ≤ 0) ∧
    -365 ≤ venda_exemplo.data_venda ∧ venda_exemplo.data_venda ≤ 0 :=
  C2_data_entrega_sse_entregue db_exemplo draws_exemplo venda_exemplo
    status_exemplo rfl gerar_venda_exemplo_eq (by decide) (by decide)
    (by decide) (by decide)

/-- C3: when any of the five reference tables is empty, `gerar_venda`
propagates `random.choice`'s IndexError instead of returning a Venda
(models.py lines 259-263). -/
theorem C3_tabela_vazia_erro (db : DB) (d : VendaDraws)
    (h : db.clientes = [] ∨ db.produtos = [] ∨ db.formas_pagamento = [] ∨
      db.status_entrega = [] ∨ db.caixas = []) :
    ∃ e : String, gerar_venda db d = Except.error e := by
  cases he : gerar_venda db d with
  | error e => exact ⟨e, rfl⟩
  | ok v =>
    obtain ⟨h1, h2, h3, h4, h5⟩ := gerar_venda_ok_nonempty he
    tauto

/-- Witness for C3 at the empty store. -/
theorem C3_tabela_vazia_erro_witness :
    ∃ e : String, gerar_venda db_vazio draws_exemplo = Except.error e :=
  C3_tabela_vazia_erro db_vazio draws_exemplo (Or.inl rfl)

/-- C4: a generated FormaPagamento has `prazo_pagamento = 0` whenever its
description is not "Boleto", `desconto = 0` whenever its description is
not "Dinheiro", and its description is always one of the four fixed
payment methods (models.py lines 224-237). -/
theorem C4_forma_pagamento_condicionais (d : FormaPagamentoDraws) :
    ((gerar_forma_pagamento d).descricao ≠ "Boleto" →
      (gerar_forma_pagamento d).prazo_pagamento = 0) ∧
    ((gerar_forma_pagamento d).descricao ≠ "Dinheiro" →
      (gerar_forma_pagamento d).desconto = 0) ∧
    (gerar_forma_pagamento d).descricao ∈
      ["Dinheiro", "Cartão de Crédito", "Cartão de Débito", "Boleto"] := by
  refine ⟨?_, ?_, ?_⟩
  · intro h
    have h2 : weightedChoice formas_pagamento d.iDescricao ≠ "Boleto" := h
    show (if weightedChoice formas_pagamento d.iDescricao = "Boleto"
          then d.prazo else 0) = 0
    rw [if_neg h2]
  · intro h
    have h2 : weightedChoice formas_pagamento d.iDescricao ≠ "Dinheiro" := h
    show (if weightedChoice formas_pagamento d.iDescricao = "Dinheiro"
          then d.descontoVal else 0) = 0
    rw [if_neg h2]
  · have h := weightedChoice_mem formas_pagamento d.iDescricao
      (by simp [formas_pagamento])
    have he : formas_pagamento.map Prod.fst =
        ["Dinheiro", "Cartão de Crédito", "Cartão de Débito", "Boleto"] := rfl
    rw [he] at h
    exact h

/-- Draws picking the "Boleto" method with a nonzero payment-term draw. -/
def forma_draws_boleto : FormaPagamentoDraws :=
  { iDescricao := 3, prazo := 5, descontoVal := 0 }

/-- Witness for C4 at a concrete "Boleto" draw. -/
theorem C4_forma_pagamento_condicionais_witness :
    (gerar_forma_pagamento forma_draws_boleto).desconto = 0 ∧
    (gerar_forma_pagamento forma_draws_boleto).descricao ∈
      ["Dinheiro", "Cartão de Crédito", "Cartão de Débito", "Boleto"] :=
  ⟨(C4_forma_pagamento_condicionais forma_draws_boleto).2.1 (by decide),
   (C4_forma_pagamento_condicionais forma_draws_boleto).2.2⟩

/-- C5: a generated Produto's `preco_unitario` is `round(uniform(10, 500),
2)`, hence lies in [10, 500] and is an integer number of hundredths, and
its `peso_sazonal` is `uniform(0.8, 1.2)`, hence lies in [0.8, 1.2]
(models.py lines 193-208). -/
theorem C5_produto_intervalos (d : ProdutoDraws)
    (h1 : 10 ≤ d.precoRaw) (h2 : d.precoRaw ≤ 500)
    (h3 : 0.8 ≤ d.pesoSazonal) (h4 : d.pesoSazonal ≤ 1.2) :
    10 ≤ (gerar_produto d).preco_unitario ∧
    (gerar_produto d).preco_unitario ≤ 500 ∧
    (∃ n : ℤ, (gerar_produto d).preco_unitario = (n : ℚ) / 100) ∧
    0.8 ≤ (gerar_produto d).peso_sazonal ∧
    (gerar_produto d).peso_sazonal ≤ 1.2 := by
  obtain ⟨ha, hb⟩ := round2_mem_Icc h1 h2
  exact ⟨ha, hb, ⟨roundHalfEven (d.precoRaw * 100), rfl⟩, h3, h4⟩

/-- Concrete draws for one `gerar_produto` call. -/
def produto_draws_exemplo : ProdutoDraws :=
  { iCategoria := 0, descricao := "Tinta acrílica fosca premium branca."
    precoRaw := 10, pesoSazonal := 1, iUnidade := 0 }

/-- Witness for C5 at a concrete draw vector. -/
theorem C5_produto_intervalos_witness :
    10 ≤ (gerar_produto produto_draws_exemplo).preco_unitario ∧
    (gerar_produto produto_draws_exemplo).preco_unitario ≤ 500 ∧
    (∃ n : ℤ,
      (gerar_produto produto_draws_exemplo).preco_unitario = (n : ℚ) / 100) ∧
    0.8 ≤ (gerar_produto produto_draws_exemplo).peso_sazonal ∧
    (gerar_produto produto_draws_exemplo).peso_sazonal ≤ 1.2 :=
  C5_produto_intervalos produto_draws_exemplo
    (by norm_num [produto_draws_exemplo])
    (by norm_num [produto_draws_exemplo])
    (by norm_num [produto_draws_exemplo])
    (by norm_num [produto_draws_exemplo])

/-- C6: with the five choice indices in range (one per reference table,
each read in full), `gerar_venda` succeeds and the Venda's five foreign
keys are the identifiers of exactly the five selected rows, each of which
is a member of its table (models.py lines 259-276). -/
theorem C6_chaves_estrangeiras (db : DB) (d : VendaDraws)
    (hc : d.iCliente < db.clientes.length)
    (hp : d.iProduto < db.produtos.length)
    (hf : d.iForma < db.formas_pagamento.length)
    (hs : d.iStatus < db.status_entrega.length)
    (hx : d.iCaixa < db.caixas.length) :
    ∃ v : Venda, gerar_venda db d = Except.ok v ∧
      db.clientes.get ⟨d.iCliente, hc⟩ ∈ db.clientes ∧
      v.id_cliente = (db.clientes.get ⟨d.iCliente, hc⟩).id_cliente ∧
      db.produtos.get ⟨d.iProduto, hp⟩ ∈ db.produtos ∧
      v.id_produto = (db.produtos.get ⟨d.iProduto, hp⟩).id_produto ∧
      db.formas_pagamento.get ⟨d.iForma, hf⟩ ∈ db.formas_pagamento ∧
      v.id_forma_pagamento =
        (db.formas_pagamento.get ⟨d.iForma, hf⟩).id_forma_pagamento ∧
      db.status_entrega.get ⟨d.iStatus, hs⟩ ∈ db.status_entrega ∧
      v.id_status_entrega =
        (db.status_entrega.get ⟨d.iStatus, hs⟩).id_status_entrega ∧
      db.caixas.get ⟨d.iCaixa, hx⟩ ∈ db.caixas ∧
      v.id_caixa = (db.caixas.get ⟨d.iCaixa, hx⟩).id_caixa :=
  ⟨_, gerar_venda_run db d hc hp hf hs hx,
    db.clientes.get_mem _ _, rfl,
    db.produtos.get_mem _ _, rfl,
    db.formas_pagamento.get_mem _ _, rfl,
    db.status_entrega.get_mem _ _, rfl,
    db.caixas.get_mem _ _, rfl⟩

/-- Witness for C6 at the one-row store. -/
theorem C6_chaves_estrangeiras_witness :
    ∃ v : Venda, gerar_venda db_exemplo draws_exemplo = Except.ok v ∧
      db_exemplo.clientes.get ⟨draws_exemplo.iCliente, by decide⟩ ∈
        db_exemplo.clientes ∧
      v.id_cliente = (db_exemplo.clientes.get
        ⟨draws_exemplo.iCliente, by decide⟩).id_cliente ∧
      db_exemplo.produtos.get ⟨draws_exemplo.iProduto, by decide⟩ ∈
        db_exemplo.produtos ∧
      v.id_produto = (db_exemplo.produtos.get
        ⟨draws_exemplo.iProduto, by decide⟩).id_produto ∧
      db_exemplo.formas_pagamento.get ⟨draws_exemplo.iForma, by decide⟩ ∈
        db_exemplo.formas_pagamento ∧
      v.id_forma_pagamento = (db_exemplo.formas_pagamento.get
        ⟨draws_exemplo.iForma, by decide⟩).id_forma_pagamento ∧
      db_exemplo.status_entrega.get ⟨draws_exemplo.iStatus, by decide⟩ ∈
        db_exemplo.status_entrega ∧
      v.id_status_entrega = (db_exemplo.status_entrega.get
        ⟨draws_exemplo.iStatus, by decide⟩).id_status_entrega ∧
      db_exemplo.caixas.get ⟨draws_exemplo.iCaixa, by decide⟩ ∈
        db_exemplo.caixas ∧
      v.id_caixa = (db_exemplo.caixas.get
        ⟨draws_exemplo.iCaixa, by decide⟩).id_caixa :=
  C6_chaves_estrangeiras db_exemplo draws_exemplo (by decide) (by decide)
    (by decide) (by decide) (by decide)

/-- C7: schema creation is idempotent — running `create_all` over the six
declared tables a second time changes nothing (models.py line 141,
modelled from the spec since create_all is SQLAlchemy library code). -/
theorem C7_create_all_idempotente (store : List String) :
    create_all tabelas (create_all tabelas store) =
      create_all tabelas store :=
  create_all_eq_of_all_mem _ _ fun t ht => mem_create_all_self tabelas store t ht

set_option maxRecDepth 100000 in
/-- C8: the Dbcarga.py driver adds 400 produtos, 80 clientes and 200
vendas and nothing else, then commits once and closes; the models.py
driver creates the schema first, adds 100 rows of each of the five
reference entities plus 500 vendas, then commits once and closes.  In both
traces every add precedes the single commit, and close is last
(Dbcarga.py lines 110-126, models.py lines 141, 278-293). -/
theorem C8_perfis_de_carga :
    dbcarga_trace.count Ev.addProduto = 400 ∧
    dbcarga_trace.count Ev.addCliente = 80 ∧
    dbcarga_trace.count Ev.addVenda = 200 ∧
    dbcarga_trace.count Ev.addCaixa = 0 ∧
    dbcarga_trace.count Ev.addFormaPagamento = 0 ∧
    dbcarga_trace.count Ev.addStatusEntrega = 0 ∧
    dbcarga_trace.count Ev.createSchema = 0 ∧
    dbcarga_trace.count Ev.commit = 1 ∧
    dbcarga_trace.count Ev.close = 1 ∧
    dbcarga_trace.length = 682 ∧
    dbcarga_trace.drop 680 = [Ev.commit, Ev.close] ∧
    models_trace.take 1 = [Ev.createSchema] ∧
    models_trace.count Ev.createSchema = 1 ∧
    models_trace.count Ev.addCliente = 100 ∧
    models_trace.count Ev.addProduto = 100 ∧
    models_trace.count Ev.addCaixa = 100 ∧
    models_trace.count Ev.addFormaPagamento = 100 ∧
    models_trace.count Ev.addStatusEntrega = 100 ∧
    models_trace.count Ev.addVenda = 500 ∧
    models_trace.count Ev.commit = 1 ∧
    models_trace.count Ev.close = 1 ∧
    models_trace.length = 1003 ∧
    models_trace.drop 1001 = [Ev.commit, Ev.close] := by
  decide

/-- C9: every generated Venda's `valor_venda` is the selected product's
`preco_unitario` times some integer k in [1, 10], but k is the
`randint(1, 10)` draw of models.py line 269, made separately from the
`randint(1, 10)` draw of line 270 that sets `quantidade`; consequently
`valor_venda` need not equal `preco_unitario * quantidade`, as the
concrete run on the one-row store shows. -/
theorem C9_multiplicador_independente (db : DB) (d : VendaDraws)
    (hc : d.iCliente < db.clientes.length)
    (hp : d.iProduto < db.produtos.length)
    (hf : d.iForma < db.formas_pagamento.length)
    (hs : d.iStatus < db.status_entrega.length)
    (hx : d.iCaixa < db.caixas.length)
    (hm1 : 1 ≤ d.valorMult) (hm2 : d.valorMult ≤ 10) :
    (∃ v : Venda, gerar_venda db d = Except.ok v ∧
      ∃ k : ℤ, 1 ≤ k ∧ k ≤ 10 ∧
        v.valor_venda =
          (db.produtos.get ⟨d.iProduto, hp⟩).preco_unitario * (k : ℚ)) ∧
    (∃ v : Venda, gerar_venda db_exemplo draws_exemplo = Except.ok v ∧
      1 ≤ draws_exemplo.quantidade ∧ draws_exemplo.quantidade ≤ 10 ∧
      1 ≤ draws_exemplo.valorMult ∧ draws_exemplo.valorMult ≤ 10 ∧
      v.valor_venda ≠ produto_exemplo.preco_unitario * (v.quantidade : ℚ)) := by
  constructor
  · exact ⟨_, gerar_venda_run db d hc hp hf hs hx, d.valorMult, hm1, hm2, rfl⟩
  · exact ⟨venda_exemplo, gerar_venda_exemplo_eq, by decide, by decide,
      by decide, by decide, by norm_num [produto_exemplo, venda_exemplo]⟩

/-- Witness for C9 at the one-row store. -/
theorem C9_multiplicador_independente_witness :
    (∃ v : Venda, gerar_venda db_exemplo draws_exemplo = Except.ok v ∧
      ∃ k : ℤ, 1 ≤ k ∧ k ≤ 10 ∧
        v.valor_venda = (db_exemplo.produtos.get
          ⟨draws_exemplo.iProduto, by decide⟩).preco_unitario * (k : ℚ)) ∧
    (∃ v : Venda, gerar_venda db_exemplo draws_exemplo = Except.ok v ∧
      1 ≤ draws_exemplo.quantidade ∧ draws_exemplo.quantidade ≤ 10 ∧
      1 ≤ draws_exemplo.valorMult ∧ draws_exemplo.valorMult ≤ 10 ∧
      v.valor_venda ≠ produto_exemplo.preco_unitario * (v.quantidade : ℚ)) :=
  C9_multiplicador_independente db_exemplo draws_exemplo (by decide)
    (by decide) (by decide) (by decide) (by decide) (by decide) (by decide)

/-- C10: a generated FormaPagamento always has `prazo_pagamento` in
[0, 30] (the `randint(0, 30)` range, or the constant 0) and `desconto` in
[0, 0.1] (the `uniform(0, 0.1)` range, or the constant 0); moreover the
draw ranges include 0, so a "Boleto" row may carry `prazo_pagamento = 0`
and a "Dinheiro" row may carry `desconto = 0` (models.py lines 231-236). -/
theorem C10_forma_pagamento_intervalos (d : FormaPagamentoDraws)
    (h1 : 0 ≤ d.prazo) (h2 : d.prazo ≤ 30)
    (h3 : 0 ≤ d.descontoVal) (h4 : d.descontoVal ≤ 0.1) :
    (0 ≤ (gerar_forma_pagamento d).prazo_pagamento ∧
     (gerar_forma_pagamento d).prazo_pagamento ≤ 30 ∧
     0 ≤ (gerar_forma_pagamento d).desconto ∧
     (gerar_forma_pagamento d).desconto ≤ 0.1) ∧
    (∃ d1 : FormaPagamentoDraws,
      0 ≤ d1.prazo ∧ d1.prazo ≤ 30 ∧
      (gerar_forma_pagamento d1).descricao = "Boleto" ∧
      (gerar_forma_pagamento d1).prazo_pagamento = 0) ∧
    (∃ d2 : FormaPagamentoDraws,
      0 ≤ d2.descontoVal ∧ d2.descontoVal ≤ 0.1 ∧
      (gerar_forma_pagamento d2).descricao = "Dinheiro" ∧
      (gerar_forma_pagamento d2).desconto = 0) := by
  have hP : (gerar_forma_pagamento d).prazo_pagamento =
      if weightedChoice formas_pagamento d.iDescricao = "Boleto"
      then d.prazo else 0 := rfl
  have hD : (gerar_forma_pagamento d).desconto =
      if weightedChoice formas_pagamento d.iDescricao = "Dinheiro"
      then d.descontoVal else 0 := rfl
  refine ⟨⟨?_, ?_, ?_, ?_⟩,
    ⟨⟨3, 0, 0⟩, le_refl 0, by norm_num, by decide, ?_⟩,
    ⟨⟨0, 0, 0⟩, le_refl 0, by norm_num, by decide, ?_⟩⟩
  · rw [hP]
    split
    · exact h1
    · exact le_refl 0
  · rw [hP]
    split
    · exact h2
    · norm_num
  · rw [hD]
    split
    · exact h3
    · exact le_refl 0
  · rw [hD]
    split
    · exact h4
    · norm_num
  · show (if weightedChoice formas_pagamento 3 = "Boleto"
          then (0 : ℤ) else 0) = 0
    split <;> rfl
  · show (if weightedChoice formas_pagamento 0 = "Dinheiro"
          then (0 : ℚ) else 0) = 0
    split <;> rfl

/-- Witness for C10 at a concrete draw vector. -/
theorem C10_forma_pagamento_intervalos_witness :
    (0 ≤ (gerar_forma_pagamento forma_draws_boleto).prazo_pagamento ∧
     (gerar_forma_pagamento forma_draws_boleto).prazo_pagamento ≤ 30 ∧
     0 ≤ (gerar_forma_pagamento forma_draws_boleto).desconto ∧
     (gerar_forma_pagamento forma_draws_boleto).desconto ≤ 0.1) ∧
    (∃ d1 : FormaPagamentoDraws,
      0 ≤ d1.prazo ∧ d1.prazo ≤ 30 ∧
      (gerar_forma_pagamento d1).descricao = "Boleto" ∧
      (gerar_forma_pagamento d1).prazo_pagamento = 0) ∧
    (∃ d2 : FormaPagamentoDraws,
      0 ≤ d2.descontoVal ∧ d2.descontoVal ≤ 0.1 ∧
      (gerar_forma_pagamento d2).descricao = "Dinheiro" ∧
      (gerar_forma_pagamento d2).desconto = 0) :=
  C10_forma_pagamento_intervalos forma_draws_boleto (by decide) (by decide)
    (by norm_num [forma_draws_boleto]) (by norm_num [forma_draws_boleto])
